import Mathlib

/-!
# Verification of the shiny live-sales dashboard orchestration core

Shallow embedding of the client-side orchestration engine of the
`cdon-leo/shiny` repository, translated from:

* `src/context/DashboardContext.tsx` — the DashboardProvider: data/pending
  state, `loadData`, `commitPendingData`, `triggerRefresh`, the one-second
  scheduler `tick`, the incoming-countdown effect and the view-timer effect;
* `src/lib/data.ts` — `getSecondsUntilNextInterval`, `getIntervalCutoffTime`;
* the API route (unnamed part) — its own, different `getIntervalCutoffTime`.

Modelling conventions:

* React `useState` fields become fields of a `DashState` structure; a
  handler that issues several `set*` calls in one synchronous body becomes
  one pure function `DashState → DashState` (React batches those updates
  into a single observable render).
* The async `loadData` is split at its single `await`: `loadData_begin`
  models the synchronous prefix (`setLoadState('loading')`), and
  `loadData_settle` models the continuation, taking the fetch outcome
  (`Except String SalesResponse`) as an explicit parameter.
* The Next.js route (`usePathname`/`router.push`) is modelled as a
  `pathname : String` field; the four routes `/`, `/incoming`, `/interval`,
  `/cumulative` are the four display phases.
* JS `Array.prototype.sort` with the comparator of `sortBranchData` is
  modelled as `List.insertionSort` over the relation the comparator
  induces; `String.prototype.localeCompare` is modelled as the
  lexicographic order on Lean strings.
* JS numbers holding whole-second countdowns are modelled as `Int`
  (the code compares them with `<= 0` and decrements, so sign matters);
  wall-clock hours are `Int` so that `setHours(getHours() - 1)` at hour 0
  is represented faithfully (JS rolls into the previous day).
-/

/-- `MetricType` from `src/lib/data.ts` / `dashboard.json`: `'gmv' | 'orders'`. -/
inductive MetricType where
  | gmv
  | orders
deriving DecidableEq, Repr

/-- `LoadState` from `DashboardContext.tsx`:
`'idle' | 'loading' | 'loaded' | 'error'`. -/
inductive LoadState where
  | idle
  | loading
  | loaded
  | error
deriving DecidableEq, Repr

/-- `BarChartDataPoint` from `src/lib/data.ts`. -/
structure BarChartDataPoint where
  time : String
  thisYear : Int
  lastYear : Int
deriving DecidableEq, Repr

/-- One `{ x, y }` point of a `LineChartSeries` (`src/lib/data.ts`). -/
structure LinePoint where
  x : String
  y : Int
deriving DecidableEq, Repr

/-- `LineChartSeries` from `src/lib/data.ts`. -/
structure LineChartSeries where
  id : String
  data : List LinePoint
deriving DecidableEq, Repr

/-- `BranchData` from `src/lib/data.ts`: one branch's chart series. -/
structure BranchData where
  branch : String
  barData : List BarChartDataPoint
  lineData : List LineChartSeries
deriving DecidableEq, Repr

/-- `LatestIntervalBranch` from the API route: per-branch summary of the
most recently completed 10-minute bucket. -/
structure LatestIntervalBranch where
  branch : String
  gmvThisYear : Int
  gmvLastYear : Int
  cumulativeThisYear : Int
  cumulativeLastYear : Int
  cumulativeLastYearFullDay : Int
deriving DecidableEq, Repr

/-- `LatestIntervalData` from the API route. -/
structure LatestIntervalData where
  time : String
  branches : List LatestIntervalBranch
deriving DecidableEq, Repr

/-- The payload of a successful `fetchSalesData()` response, as consumed by
`DashboardContext.tsx`: `data`, `latestInterval` (nullable), `metric`. -/
structure SalesResponse where
  data : List BranchData
  latestInterval : Option LatestIntervalData
  metric : MetricType
deriving DecidableEq, Repr

/-- `VIEW_DISPLAY_SECONDS` from `DashboardContext.tsx`. -/
def VIEW_DISPLAY_SECONDS : Int := 30

/-- `INCOMING_COUNTDOWN_SECONDS` from `DashboardContext.tsx`. -/
def INCOMING_COUNTDOWN_SECONDS : Int := 10

/-- `DEV_FORCE_VIEW` from `DashboardContext.tsx` (`null` in the source). -/
def DEV_FORCE_VIEW : Option String := none

/-- Lexicographic comparison of character lists by code point; the model of
`String.prototype.localeCompare` returning a non-positive value. -/
def lexLe : List Char → List Char → Bool
  | [], _ => true
  | _ :: _, [] => false
  | a :: as, b :: bs =>
    if a.toNat < b.toNat then true
    else if b.toNat < a.toNat then false
    else lexLe as bs

/-- `lexLe` lifted to strings. -/
def strLe (a b : String) : Bool :=
  lexLe a.data b.data

theorem lexLe_total : ∀ x y : List Char, lexLe x y = true ∨ lexLe y x = true := by
  intro x
  induction x with
  | nil => intro y; left; simp [lexLe]
  | cons a as ih =>
    intro y
    cases y with
    | nil => right; simp [lexLe]
    | cons b bs =>
      rcases Nat.lt_trichotomy a.toNat b.toNat with h | h | h
      · left; simp [lexLe, h]
      · rcases ih bs with hab | hba
        · left; simp [lexLe, h, hab]
        · right; simp [lexLe, h.symm, hba]
      · right; simp [lexLe, h]

theorem lexLe_trans :
    ∀ x y z : List Char, lexLe x y = true → lexLe y z = true → lexLe x z = true := by
  intro x
  induction x with
  | nil => intro y z _ _; simp [lexLe]
  | cons a as ih =>
    intro y z hxy hyz
    cases y with
    | nil => simp [lexLe] at hxy
    | cons b bs =>
      cases z with
      | nil => simp [lexLe] at hyz
      | cons c cs =>
        simp only [lexLe] at hxy hyz ⊢
        split_ifs at hxy hyz ⊢ with h1 h2 h3 h4 h5 h6 <;>
          first
            | rfl
            | omega
            | (exact ih bs cs hxy hyz)

/-- The relation induced by the comparator in `sortBranchData`
(`DashboardContext.tsx` lines 45–51): `'cdon'` compares below everything,
two non-`'cdon'` branches compare by `localeCompare` (modelled as the
lexicographic order `strLe`). -/
def branchLE (a b : BranchData) : Prop :=
  a.branch = "cdon" ∨ (b.branch ≠ "cdon" ∧ strLe a.branch b.branch = true)

instance : DecidableRel branchLE := fun a b => by
  unfold branchLE; infer_instance

instance : IsTotal BranchData branchLE where
  total a b := by
    unfold branchLE
    by_cases ha : a.branch = "cdon"
    · exact Or.inl (Or.inl ha)
    · by_cases hb : b.branch = "cdon"
      · exact Or.inr (Or.inl hb)
      · rcases lexLe_total a.branch.data b.branch.data with h | h
        · exact Or.inl (Or.inr ⟨hb, h⟩)
        · exact Or.inr (Or.inr ⟨ha, h⟩)

instance : IsTrans BranchData branchLE where
  trans a b c hab hbc := by
    unfold branchLE at *
    rcases hab with ha | ⟨hb, hab⟩
    · exact Or.inl ha
    · rcases hbc with hb' | ⟨hc, hbc⟩
      · exact absurd hb' hb
      · exact Or.inr ⟨hc, lexLe_trans _ _ _ hab hbc⟩

/-- `sortBranchData` (`DashboardContext.tsx` lines 45–51): copy of the list
sorted with CDON first, the rest in `localeCompare` order. -/
def sortBranchData (data : List BranchData) : List BranchData :=
  List.insertionSort branchLE data

/-- The whole `useState` surface of `DashboardProvider`
(`DashboardContext.tsx`), together with the refs and the current route. -/
structure DashState where
  data : List BranchData
  latestInterval : Option LatestIntervalData
  metric : MetricType
  loadState : LoadState
  error : Option String
  pendingData : Option (List BranchData)
  pendingLatestInterval : Option LatestIntervalData
  incomingCountdown : Int
  viewSecondsRemaining : Int
  nextUpdateCountdown : Int
  laserFlowKey : Nat
  hasPreloadedForInterval : Option String
  isInitialLoad : Bool
  pathname : String
deriving DecidableEq, Repr

/-- The initial state of `DashboardProvider` on mount: the `useState`
initialisers, `hasPreloadedForInterval = null`, `isInitialLoad = true`,
starting on the charts route `/`. `seededCountdown` stands for the value of
`getSecondsUntilNextUpdate()` evaluated at mount time. -/
def initState (seededCountdown : Int) : DashState where
  data := []
  latestInterval := none
  metric := .gmv
  loadState := .loading
  error := none
  pendingData := none
  pendingLatestInterval := none
  incomingCountdown := INCOMING_COUNTDOWN_SECONDS
  viewSecondsRemaining := VIEW_DISPLAY_SECONDS
  nextUpdateCountdown := seededCountdown
  laserFlowKey := 0
  hasPreloadedForInterval := none
  isInitialLoad := true
  pathname := "/"

/-- Synchronous prefix of `loadData` (`DashboardContext.tsx` line 106):
`setLoadState('loading')` runs before the `await`. -/
def loadData_begin (s : DashState) : DashState :=
  { s with loadState := .loading }

/-- Continuation of `loadData` after `await fetchSalesData()`
(`DashboardContext.tsx` lines 107–127). On success the sorted branch list
and the response's `latestInterval` go to the pending slots when
`staged = true`, directly to the displayed slots otherwise; `metric` is
set, `error` cleared, `loadState` becomes `loaded` and the initial-load
flag drops. On failure the `catch` records the message and sets
`loadState` to `error`. -/
def loadData_settle (staged : Bool) (outcome : Except String SalesResponse)
    (s : DashState) : DashState :=
  match outcome with
  | .ok response =>
      let sortedData := sortBranchData response.data
      let s1 :=
        if staged then
          { s with pendingData := some sortedData
                   pendingLatestInterval := response.latestInterval }
        else
          { s with data := sortedData
                   latestInterval := response.latestInterval }
      { s1 with metric := response.metric
                error := none
                loadState := .loaded
                isInitialLoad := false }
  | .error err =>
      { s with error := some err, loadState := .error }

/-- `loadData(staged)` (`DashboardContext.tsx` lines 104–128) run to
completion with the given fetch outcome. -/
def loadData (staged : Bool) (outcome : Except String SalesResponse)
    (s : DashState) : DashState :=
  loadData_settle staged outcome (loadData_begin s)

/-- `commitPendingData` (`DashboardContext.tsx` lines 131–140): moves each
pending slot, when non-null, into the displayed slot and clears it. -/
def commitPendingData (s : DashState) : DashState :=
  let s1 :=
    match s.pendingData with
    | some d => { s with data := d, pendingData := none }
    | none => s
  match s1.pendingLatestInterval with
  | some li => { s1 with latestInterval := some li, pendingLatestInterval := none }
  | none => s1

/-- `triggerRefresh` (`DashboardContext.tsx` lines 143–149): unless the dev
override is set, reset the incoming countdown, bump the LaserFlow key and
navigate to `/incoming`. -/
def triggerRefresh (s : DashState) : DashState :=
  if DEV_FORCE_VIEW.isSome then s
  else
    { s with incomingCountdown := INCOMING_COUNTDOWN_SECONDS
             laserFlowKey := s.laserFlowKey + 1
             pathname := "/incoming" }

/-- A wall-clock reading as the scheduler sees it: `getHours()`,
`getMinutes()`, `getSeconds()` of a JS `Date`. -/
structure ClockTime where
  hours : Nat
  minutes : Nat
  seconds : Nat
deriving DecidableEq, Repr

/-- The interval key built in `tick` (`DashboardContext.tsx` lines 172–174):
the template string `hours ++ ":" ++ intervalStart` for the current
10-minute bucket, e.g. `"13:20"`. -/
def currentIntervalKey (t : ClockTime) : String :=
  toString t.hours ++ ":" ++ toString (t.minutes / 10 * 10)

/-- `getSecondsUntilNextUpdate` (`DashboardContext.tsx` lines 54–71):
seconds until the next `:01:00`, `:11:00`, … instant, from the current
minute and second. The `else` branch is kept from the source even though
`minuteInInterval` is never negative. -/
def getSecondsUntilNextUpdate (minutes seconds : Nat) : Int :=
  let minuteInInterval := minutes % 10
  let minutesUntilNext : Int :=
    if minuteInInterval = 0 then 1
    else if minuteInInterval ≥ 1 then 11 - (minuteInInterval : Int)
    else 1 - (minuteInInterval : Int)
  minutesUntilNext * 60 - seconds

/-- `getSecondsUntilNextInterval` (`src/lib/data.ts` lines 56–78): the same
computation as `getSecondsUntilNextUpdate`, duplicated in the library. -/
def getSecondsUntilNextInterval (minutes seconds : Nat) : Int :=
  let minuteInInterval := minutes % 10
  let minutesUntilNext : Int :=
    if minuteInInterval = 0 then 1
    else if minuteInInterval ≥ 1 then 11 - (minuteInInterval : Int)
    else 1 - (minuteInInterval : Int)
  minutesUntilNext * 60 - seconds

/-- One run of the scheduler's `tick` (`DashboardContext.tsx` lines
166–193) at clock time `t`. Returns the updated state and whether this
tick issued the preload fetch `loadData(true)` (whose synchronous prefix,
`setLoadState('loading')`, is applied here; its continuation is
`loadData_settle true` with the eventual outcome). The surrounding effect
never installs the tick when `DEV_FORCE_VIEW` is set, which is why the dev
check does not appear inside this function. -/
def tick (t : ClockTime) (s : DashState) : DashState × Bool :=
  let minuteInInterval := t.minutes % 10
  let key := currentIntervalKey t
  let s0 := { s with nextUpdateCountdown := getSecondsUntilNextUpdate t.minutes t.seconds }
  let staged :=
    if minuteInInterval = 0 ∧ t.seconds = 30 ∧ s0.hasPreloadedForInterval ≠ some key then
      (loadData_begin { s0 with hasPreloadedForInterval := some key }, true)
    else (s0, false)
  let s1 := staged.1
  let s2 :=
    if minuteInInterval = 1 ∧ t.seconds = 0 ∧ s1.isInitialLoad = false ∧ s1.pathname = "/" then
      { s1 with incomingCountdown := INCOMING_COUNTDOWN_SECONDS
                laserFlowKey := s1.laserFlowKey + 1
                pathname := "/incoming" }
    else s1
  (s2, staged.2)

/-- One evaluation of the incoming-countdown effect (`DashboardContext.tsx`
lines 201–217): inert off the `/incoming` route; at countdown ≤ 0 it seeds
the view timer and navigates to `/interval`; otherwise the one-second
timeout decrements the countdown (the `else` branch here stands for that
timeout having fired). -/
def incomingStep (s : DashState) : DashState :=
  if DEV_FORCE_VIEW.isSome then s
  else if s.pathname ≠ "/incoming" then s
  else if s.incomingCountdown ≤ 0 then
    { s with viewSecondsRemaining := VIEW_DISPLAY_SECONDS, pathname := "/interval" }
  else
    { s with incomingCountdown := s.incomingCountdown - 1 }

/-- One evaluation of the view-timer effect (`DashboardContext.tsx` lines
220–246): inert off `/interval` and `/cumulative`; at 0 the interval view
re-seeds the timer and navigates to `/cumulative`, while the cumulative
view commits the pending data and navigates back to `/`; otherwise the
one-second timeout decrements the timer. -/
def viewStep (s : DashState) : DashState :=
  if DEV_FORCE_VIEW.isSome then s
  else if s.pathname ≠ "/interval" ∧ s.pathname ≠ "/cumulative" then s
  else if s.viewSecondsRemaining ≤ 0 then
    if s.pathname = "/interval" then
      { s with viewSecondsRemaining := VIEW_DISPLAY_SECONDS, pathname := "/cumulative" }
    else if s.pathname = "/cumulative" then
      { commitPendingData s with pathname := "/" }
    else s
  else
    { s with viewSecondsRemaining := s.viewSecondsRemaining - 1 }

/-- A wall-clock reading for the cutoff computations; `hours` is an `Int`
because `setHours(getHours() - 1)` at hour 0 rolls into the previous day. -/
structure WallClock where
  hours : Int
  minutes : Nat
  seconds : Nat
deriving DecidableEq, Repr

/-- Total seconds represented by a `WallClock`, for comparing instants. -/
def WallClock.toSeconds (t : WallClock) : Int :=
  t.hours * 3600 + t.minutes * 60 + t.seconds

/-- `getIntervalCutoffTime` (`src/lib/data.ts` lines 84–104): zero the
seconds and move to the start of the PREVIOUS 10-minute interval, rolling
back an hour when the current interval starts at minute 0. -/
def getIntervalCutoffTime (now : WallClock) : WallClock :=
  let currentIntervalStart := now.minutes / 10 * 10
  if currentIntervalStart ≥ 10 then
    { hours := now.hours, minutes := currentIntervalStart - 10, seconds := 0 }
  else
    { hours := now.hours - 1, minutes := 50, seconds := 0 }

/-- The API route's `getIntervalCutoffTime` (unnamed API-route source,
lines 109–121): zero the seconds and move to the start of the CURRENT
10-minute interval, i.e. the end of the previous one. -/
def getIntervalCutoffTimeApi (now : WallClock) : WallClock :=
  { hours := now.hours, minutes := now.minutes / 10 * 10, seconds := 0 }

/-! ## C1 — `commitStaged()` behaviour -/

/-- C1 counterexample: with no staged snapshot, `commitPendingData` is the
identity — it performs no fallback fetch (no transition through a loading
state, no data change), so the stale `active` data is kept silently,
contrary to the claim that an absent staged snapshot triggers a fresh
synchronous fetch. -/
theorem commitStaged_no_fallback_cex :
    commitPendingData
        { initState 0 with data := [⟨"cdon", [⟨"13:10", 1, 1⟩], []⟩], loadState := .loaded }
      = { initState 0 with data := [⟨"cdon", [⟨"13:10", 1, 1⟩], []⟩], loadState := .loaded } := by
  decide

/-- C1 (amended): if a staged snapshot is present (both pending slots),
`commitPendingData` replaces the active snapshot with it and clears the
staged slots in one step; if no staged snapshot is present it is a no-op —
there is no fallback fetch. -/
theorem commitStaged_behavior (s : DashState) :
    (s.pendingData = none ∧ s.pendingLatestInterval = none → commitPendingData s = s) ∧
    (∀ d li, s.pendingData = some d → s.pendingLatestInterval = some li →
      commitPendingData s =
        { s with data := d, latestInterval := some li,
                 pendingData := none, pendingLatestInterval := none }) := by
  constructor
  · rintro ⟨h1, h2⟩
    simp [commitPendingData, h1, h2]
  · intro d li h1 h2
    simp [commitPendingData, h1, h2]

/-- C1 witness: `commitStaged_behavior` evaluated at concrete states, one
with empty staged slots and one with both staged slots filled. -/
theorem commitStaged_behavior_witness :
    commitPendingData (initState 0) = initState 0 ∧
    commitPendingData
        { initState 0 with pendingData := some [⟨"cdon", [], []⟩],
                           pendingLatestInterval := some ⟨"13:20", []⟩ }
      = { initState 0 with data := [⟨"cdon", [], []⟩],
                           latestInterval := some ⟨"13:20", []⟩ } :=
  ⟨(commitStaged_behavior (initState 0)).1 ⟨rfl, rfl⟩,
   (commitStaged_behavior _).2 [⟨"cdon", [], []⟩] ⟨"13:20", []⟩ rfl rfl⟩

/-! ## C3 — manual refresh mid-cycle -/

/-- C3 counterexample: invoking `triggerRefresh` while on the interval-
summary view is not a no-op — it changes the route (phase) and resets the
incoming countdown. -/
theorem triggerRefresh_not_noop_cex :
    (triggerRefresh { initState 0 with pathname := "/interval", incomingCountdown := 7 }).pathname
        ≠ "/interval" ∧
    (triggerRefresh { initState 0 with pathname := "/interval", incomingCountdown := 7 }).incomingCountdown
        ≠ 7 := by
  decide

/-- C3 (amended): `triggerRefresh` (dev override unset, as in the source)
never checks the current phase: from every state it resets the incoming
countdown to 10, bumps the LaserFlow key and navigates to `/incoming`; it
does leave the active snapshot (`data`, `latestInterval`), the metric, the
load state and the view countdown unchanged. -/
theorem triggerRefresh_always_restarts (s : DashState) :
    triggerRefresh s =
      { s with incomingCountdown := INCOMING_COUNTDOWN_SECONDS,
               laserFlowKey := s.laserFlowKey + 1,
               pathname := "/incoming" } ∧
    (triggerRefresh s).data = s.data ∧
    (triggerRefresh s).latestInterval = s.latestInterval ∧
    (triggerRefresh s).metric = s.metric ∧
    (triggerRefresh s).loadState = s.loadState ∧
    (triggerRefresh s).viewSecondsRemaining = s.viewSecondsRemaining := by
  refine ⟨?_, ?_, ?_, ?_, ?_, ?_⟩ <;> simp [triggerRefresh, DEV_FORCE_VIEW]

/-- C3 witness: `triggerRefresh_always_restarts` evaluated on a concrete
cumulative-view state. -/
theorem triggerRefresh_always_restarts_witness :
    triggerRefresh { initState 0 with pathname := "/cumulative" } =
      { initState 0 with incomingCountdown := 10, laserFlowKey := 1, pathname := "/incoming" } :=
  (triggerRefresh_always_restarts { initState 0 with pathname := "/cumulative" }).1

/-! ## C4 — frame effect of a successful staged load -/

/-- Concrete pre-state for the C4 counterexample: an error is showing and
the deployed metric is `orders`. -/
def stagedLoadCexStart : DashState :=
  { initState 0 with loadState := .error, error := some "boom", metric := .orders }

/-- C4 counterexample: a successful staged load leaves the active snapshot
alone but changes the displayed load state (error → loaded), the displayed
metric and the error slot — refuting "everything that feeds the displayed
UI (including the displayed metric and load state) is left untouched". -/
theorem stagedLoad_touches_ui_cex :
    (loadData true (.ok ⟨[], none, .gmv⟩) stagedLoadCexStart).data = stagedLoadCexStart.data ∧
    (loadData true (.ok ⟨[], none, .gmv⟩) stagedLoadCexStart).latestInterval
        = stagedLoadCexStart.latestInterval ∧
    (loadData true (.ok ⟨[], none, .gmv⟩) stagedLoadCexStart).loadState ≠ stagedLoadCexStart.loadState ∧
    (loadData true (.ok ⟨[], none, .gmv⟩) stagedLoadCexStart).metric ≠ stagedLoadCexStart.metric ∧
    (loadData true (.ok ⟨[], none, .gmv⟩) stagedLoadCexStart).error ≠ stagedLoadCexStart.error := by
  decide

/-- C4 (amended): a successful staged load stores the sorted snapshot only
in the pending slots and leaves the active `data` and `latestInterval`
untouched, but it also sets the shared `metric`, clears `error`, sets
`loadState` to `loaded` (after having shown `loading` at its start) and
drops the initial-load flag. -/
theorem stagedLoad_frame (s : DashState) (response : SalesResponse) :
    (loadData true (.ok response) s).data = s.data ∧
    (loadData true (.ok response) s).latestInterval = s.latestInterval ∧
    (loadData true (.ok response) s).pendingData = some (sortBranchData response.data) ∧
    (loadData true (.ok response) s).pendingLatestInterval = response.latestInterval ∧
    (loadData true (.ok response) s).metric = response.metric ∧
    (loadData true (.ok response) s).loadState = .loaded ∧
    (loadData true (.ok response) s).error = none ∧
    (loadData_begin s).loadState = .loading := by
  refine ⟨?_, ?_, ?_, ?_, ?_, ?_, ?_, ?_⟩ <;>
    simp [loadData, loadData_begin, loadData_settle]

/-- C4 witness: `stagedLoad_frame` evaluated on concrete inputs. -/
theorem stagedLoad_frame_witness :
    (loadData true (.ok ⟨[⟨"cdon", [], []⟩], some ⟨"13:20", []⟩, .gmv⟩) (initState 0)).pendingData
      = some [⟨"cdon", [], []⟩] :=
  ((stagedLoad_frame (initState 0) ⟨[⟨"cdon", [], []⟩], some ⟨"13:20", []⟩, .gmv⟩).2.2.1).trans
    (by decide)

/-! ## C5 — atomicity of commit -/

/-- First fetched response of the C5 counterexample run: bar data and an
interval summary for the 13:00–13:10 bucket. -/
def mixResp1 : SalesResponse :=
  ⟨[⟨"cdon", [⟨"13:10", 1, 1⟩], []⟩], some ⟨"13:10", []⟩, .gmv⟩

/-- Second fetched (staged) response of the C5 counterexample run: fresh
bar data but `latestInterval: null`, as the API returns when it has no row
matching the cutoff. -/
def mixResp2 : SalesResponse :=
  ⟨[⟨"cdon", [⟨"13:20", 9, 9⟩], []⟩], none, .gmv⟩

/-- The state reached by: initial direct load of `mixResp1`, staged load of
`mixResp2`, then `commitPendingData`. -/
def mixCommitted : DashState :=
  commitPendingData (loadData true (.ok mixResp2) (loadData false (.ok mixResp1) (initState 0)))

/-- C5 counterexample: committing a staged snapshot whose `latestInterval`
is `null` updates only the bar data, so the resulting displayed state mixes
the new chart (bar) data with the old interval-summary data — an observable
mixed state, refuting the unconditional atomic-replacement claim. -/
theorem commit_mixed_display_cex :
    mixCommitted.data = [⟨"cdon", [⟨"13:20", 9, 9⟩], []⟩] ∧
    mixCommitted.latestInterval = some ⟨"13:10", []⟩ ∧
    mixCommitted.pendingData = none := by
  decide

/-- C5 (amended): when the staged snapshot is complete (both pending slots
non-null), `commitPendingData` replaces the active snapshot with it in one
single-step transition — the committed values are field-for-field the
staged ones and no intermediate state exists; but when the staged
`latestInterval` is `null` only the bar data is replaced and the old
interval summary persists. -/
theorem commit_atomic_when_fully_staged (s : DashState) (d : List BranchData)
    (li : LatestIntervalData) (hd : s.pendingData = some d)
    (hli : s.pendingLatestInterval = some li) :
    commitPendingData s =
      { s with data := d, latestInterval := some li,
               pendingData := none, pendingLatestInterval := none } := by
  simp [commitPendingData, hd, hli]

/-- C5 witness: `commit_atomic_when_fully_staged` evaluated on a concrete
fully-staged state. -/
theorem commit_atomic_when_fully_staged_witness :
    commitPendingData
        { initState 0 with pendingData := some [⟨"fyndiq", [], []⟩],
                           pendingLatestInterval := some ⟨"18:40", []⟩ }
      = { initState 0 with data := [⟨"fyndiq", [], []⟩],
                           latestInterval := some ⟨"18:40", []⟩ } :=
  commit_atomic_when_fully_staged _ [⟨"fyndiq", [], []⟩] ⟨"18:40", []⟩ rfl rfl

/-! ## C6 — failing staged fetch -/

/-- Concrete pre-state for the C6 counterexample: a good snapshot is both
displayed and staged. -/
def stageFailStart : DashState :=
  { initState 0 with
      data := [⟨"cdon", [], []⟩], latestInterval := some ⟨"13:10", []⟩,
      pendingData := some [⟨"cdon", [⟨"13:20", 9, 9⟩], []⟩],
      pendingLatestInterval := some ⟨"13:20", []⟩,
      loadState := .loaded }

/-- C6 counterexample: a failing staged fetch does keep the previously
staged snapshot, but it is not silently swallowed — the shared `error` slot
and `loadState = error` (the state the UI renders as an error screen) are
set. -/
theorem stageFailure_visible_error_cex :
    (loadData true (.error "network down") stageFailStart).loadState = LoadState.error ∧
    (loadData true (.error "network down") stageFailStart).error = some "network down" ∧
    (loadData true (.error "network down") stageFailStart).pendingData
        = stageFailStart.pendingData ∧
    (loadData true (.error "network down") stageFailStart).pendingLatestInterval
        = stageFailStart.pendingLatestInterval := by
  decide

/-- C6 (amended): a failing fetch (staged or not) leaves every data slot —
staged and active — untouched, so a previously staged good snapshot
survives; but the failure is escalated to the visible error state: the
message is stored in `error` and `loadState` becomes `error`. -/
theorem stageFailure_keeps_staged (s : DashState) (staged : Bool) (msg : String) :
    (loadData staged (.error msg) s).pendingData = s.pendingData ∧
    (loadData staged (.error msg) s).pendingLatestInterval = s.pendingLatestInterval ∧
    (loadData staged (.error msg) s).data = s.data ∧
    (loadData staged (.error msg) s).latestInterval = s.latestInterval ∧
    (loadData staged (.error msg) s).metric = s.metric ∧
    (loadData staged (.error msg) s).error = some msg ∧
    (loadData staged (.error msg) s).loadState = LoadState.error := by
  refine ⟨?_, ?_, ?_, ?_, ?_, ?_, ?_⟩ <;>
    simp [loadData, loadData_begin, loadData_settle]

/-- C6 witness: `stageFailure_keeps_staged` evaluated on a concrete state
and message. -/
theorem stageFailure_keeps_staged_witness :
    (loadData true (.error "boom") { initState 0 with pendingData := some [] }).pendingData
      = some [] :=
  (stageFailure_keeps_staged { initState 0 with pendingData := some [] } true "boom").1

/-! ## C2 — when staged data is committed -/

/-- First fetched response of the C2 counterexample run (initial load). -/
def revealResp1 : SalesResponse :=
  ⟨[⟨"cdon", [⟨"13:10", 1, 1⟩], []⟩], some ⟨"13:10", []⟩, .gmv⟩

/-- Second, staged response of the C2 counterexample run (preloaded at
13:20:30 for the just-closed bucket). -/
def revealResp2 : SalesResponse :=
  ⟨[⟨"cdon", [⟨"13:20", 9, 9⟩], []⟩], some ⟨"13:20", []⟩, .gmv⟩

/-- The C2 counterexample execution: initial load, preload tick at
13:20:30, staged fetch resolving, reveal tick at 13:21:00 (navigates to
`/incoming` with countdown 10), ten countdown steps, and the step that
transitions into `/interval`. -/
def revealRun : DashState :=
  incomingStep^[11]
    ((tick ⟨13, 21, 0⟩
      (loadData_settle true (.ok revealResp2)
        ((tick ⟨13, 20, 30⟩ (loadData false (.ok revealResp1) (initState 0))).1))).1)

/-- C2 counterexample: in the execution `revealRun` the system is on the
IntervalSummary route while the staged snapshot is still sitting
uncommitted in the pending slots and the displayed `latestInterval` is
still the old one — `commitPendingData` has not run at the
Anticipation → IntervalSummary transition, refuting the claim. -/
theorem interval_shown_before_commit_cex :
    revealRun.pathname = "/interval" ∧
    revealRun.latestInterval = some ⟨"13:10", []⟩ ∧
    revealRun.pendingLatestInterval = some ⟨"13:20", []⟩ ∧
    revealRun.pendingData = some [⟨"cdon", [⟨"13:20", 9, 9⟩], []⟩] := by
  decide

/-- C2 (amended): the Anticipation → IntervalSummary transition (incoming
countdown reaching 0) only seeds the view timer and navigates — it does
not invoke `commitPendingData` and touches no data slot; the staged data
is committed only at the CumulativeSummary → Charts transition (view timer
reaching 0 on `/cumulative`). -/
theorem commit_deferred_to_cycle_end (s : DashState) :
    (s.pathname = "/incoming" → s.incomingCountdown ≤ 0 →
      incomingStep s =
        { s with viewSecondsRemaining := VIEW_DISPLAY_SECONDS, pathname := "/interval" }) ∧
    (s.pathname = "/cumulative" → s.viewSecondsRemaining ≤ 0 →
      viewStep s = { commitPendingData s with pathname := "/" }) := by
  constructor
  · intro h1 h2
    simp [incomingStep, DEV_FORCE_VIEW, h1, h2]
  · intro h1 h2
    have hne : ("/cumulative" : String) ≠ "/interval" := by decide
    simp [viewStep, DEV_FORCE_VIEW, h1, h2, hne]

/-- C2 witness: `commit_deferred_to_cycle_end` evaluated on a concrete
expiring Anticipation state and a concrete expiring CumulativeSummary
state. -/
theorem commit_deferred_to_cycle_end_witness :
    incomingStep { initState 0 with pathname := "/incoming", incomingCountdown := 0 }
      = { initState 0 with pathname := "/interval", incomingCountdown := 0,
                           viewSecondsRemaining := 30 } ∧
    viewStep { initState 0 with
                 pathname := "/cumulative"
                 viewSecondsRemaining := 0
                 pendingData := some [⟨"cdon", [], []⟩]
                 pendingLatestInterval := some ⟨"13:20", []⟩ }
      = { initState 0 with pathname := "/", viewSecondsRemaining := 0,
                           data := [⟨"cdon", [], []⟩],
                           latestInterval := some ⟨"13:20", []⟩ } :=
  ⟨(commit_deferred_to_cycle_end _).1 rfl (by decide),
   (commit_deferred_to_cycle_end _).2 rfl (by decide)⟩

/-! ## C7 — the interval cutoff -/

/-- C7 counterexample: neither implementation matches the claim. The
library `getIntervalCutoffTime` at 18:41 yields 18:30:00, not the claimed
18:40:00 (it returns the start of the previous bucket, two boundaries
back); the API route's version at exactly 18:00:00 yields 18:00:00, not
the claimed 17:50:00 (and at 18:05 yields 18:00:00, not 17:50:00). -/
theorem intervalCutoff_cex :
    getIntervalCutoffTime ⟨18, 41, 0⟩ = ⟨18, 30, 0⟩ ∧
    getIntervalCutoffTime ⟨18, 41, 0⟩ ≠ ⟨18, 40, 0⟩ ∧
    getIntervalCutoffTimeApi ⟨18, 0, 0⟩ = ⟨18, 0, 0⟩ ∧
    getIntervalCutoffTimeApi ⟨18, 0, 0⟩ ≠ ⟨17, 50, 0⟩ ∧
    getIntervalCutoffTimeApi ⟨18, 5, 0⟩ = ⟨18, 0, 0⟩ := by
  decide

/-- The corrected cutoff specification. The library version returns the
10-minute-aligned instant one full bucket before the current bucket start
(strictly earlier than `now`); the API route's version returns the current
bucket start itself (the end of the most recently completed bucket), which
equals `now` exactly at a boundary instant. -/
def CutoffSpec (now : WallClock) : Prop :=
  (getIntervalCutoffTime now).minutes % 10 = 0 ∧
  (getIntervalCutoffTime now).seconds = 0 ∧
  (getIntervalCutoffTime now).toSeconds
      = now.toSeconds - ((now.minutes % 10 : Nat) : Int) * 60 - (now.seconds : Int) - 600 ∧
  (getIntervalCutoffTime now).toSeconds < now.toSeconds ∧
  (getIntervalCutoffTimeApi now).minutes % 10 = 0 ∧
  (getIntervalCutoffTimeApi now).seconds = 0 ∧
  (getIntervalCutoffTimeApi now).toSeconds
      = now.toSeconds - ((now.minutes % 10 : Nat) : Int) * 60 - (now.seconds : Int) ∧
  (getIntervalCutoffTimeApi now).toSeconds ≤ now.toSeconds

/-- C7 (amended): for every valid wall-clock reading both cutoff functions
return a 10-minute-aligned instant no later than `now`, but they differ:
the library version returns the start of the previous bucket (18:41 →
18:30:00, 18:05 → 17:50:00, 18:00:00 → 17:50:00), while the API version
returns the start of the current bucket (18:41 → 18:40:00,
18:00:00 → 18:00:00). -/
theorem intervalCutoff_spec (now : WallClock) (hm : now.minutes < 60)
    (hs : now.seconds < 60) :
    CutoffSpec now ∧
    getIntervalCutoffTime ⟨18, 41, 0⟩ = ⟨18, 30, 0⟩ ∧
    getIntervalCutoffTime ⟨18, 5, 0⟩ = ⟨17, 50, 0⟩ ∧
    getIntervalCutoffTime ⟨18, 0, 0⟩ = ⟨17, 50, 0⟩ ∧
    getIntervalCutoffTimeApi ⟨18, 41, 0⟩ = ⟨18, 40, 0⟩ ∧
    getIntervalCutoffTimeApi ⟨18, 0, 0⟩ = ⟨18, 0, 0⟩ := by
  refine ⟨?_, by decide, by decide, by decide, by decide, by decide⟩
  unfold CutoffSpec getIntervalCutoffTime getIntervalCutoffTimeApi WallClock.toSeconds
  dsimp only
  split_ifs with h <;> dsimp <;> omega

/-- C7 witness: `intervalCutoff_spec` evaluated at a concrete clock
reading. -/
theorem intervalCutoff_spec_witness : CutoffSpec ⟨7, 23, 45⟩ :=
  (intervalCutoff_spec ⟨7, 23, 45⟩ (by decide) (by decide)).1

/-! ## C8 — seconds until the reveal boundary -/

/-- C8 counterexample: at the reveal boundary itself (minute % 10 = 1,
second = 0) both countdown functions return 600, which is outside the
claimed half-open range [0, 600). -/
theorem nextUpdate_range_cex :
    getSecondsUntilNextUpdate 1 0 = 600 ∧
    ¬ getSecondsUntilNextUpdate 1 0 < 600 ∧
    getSecondsUntilNextInterval 1 0 = 600 := by
  decide

/-- The corrected countdown specification at minute `m`, second `s`: the
value lies in [1, 600], hits 600 exactly at the reveal boundary, the
library duplicate agrees, and from one one-second tick to the next the
value decreases by exactly 1 except at the wraparound tick from
(m % 10 = 0, s = 59) to (m % 10 = 1, s = 0), where it resets to 600. -/
def NextUpdateSpec (m s : Nat) : Prop :=
  1 ≤ getSecondsUntilNextUpdate m s ∧
  getSecondsUntilNextUpdate m s ≤ 600 ∧
  getSecondsUntilNextInterval m s = getSecondsUntilNextUpdate m s ∧
  (getSecondsUntilNextUpdate m s = 600 ↔ m % 10 = 1 ∧ s = 0) ∧
  (m % 10 = 0 ∧ s = 59 → getSecondsUntilNextUpdate ((m + 1) % 60) 0 = 600) ∧
  (¬(m % 10 = 0 ∧ s = 59) →
    getSecondsUntilNextUpdate (if s = 59 then (m + 1) % 60 else m) ((s + 1) % 60)
      = getSecondsUntilNextUpdate m s - 1)

/-- C8 (amended): for every minute and second of the hour the countdown
value lies in [1, 600] — reaching exactly 600 at the reveal boundary
instant itself, never 0 — and decreases by exactly 1 per one-second tick,
except at the wraparound right after the boundary fires, where it resets
to exactly 600. -/
theorem nextUpdate_spec (m s : Nat) (hm : m < 60) (hs : s < 60) : NextUpdateSpec m s := by
  unfold NextUpdateSpec getSecondsUntilNextUpdate getSecondsUntilNextInterval
  dsimp only
  split_ifs <;> push_cast <;> omega

/-- C8 witness: `nextUpdate_spec` evaluated at a concrete minute and
second. -/
theorem nextUpdate_spec_witness : NextUpdateSpec 34 56 :=
  nextUpdate_spec 34 56 (by decide) (by decide)

/-! ## C9 — at most one preload per bucket -/

/-- The C9 property at state `s` and boundary ticks `t`, `t'`: the first
tick stages and records the cycle key, and any further boundary tick with
the same cycle key does not stage again. The final conjunct also states
that a tick stages exactly when the time matches the preload boundary and
the cycle key is not the recorded one. -/
def TickPreloadOnce (s : DashState) (t t' : ClockTime) : Prop :=
  (tick t s).2 = true ∧
  (tick t s).1.hasPreloadedForInterval = some (currentIntervalKey t) ∧
  (currentIntervalKey t' = currentIntervalKey t → (tick t' (tick t s).1).2 = false) ∧
  (∀ (s₂ : DashState) (t₂ : ClockTime),
    (tick t₂ s₂).2 = true ↔
      (t₂.minutes % 10 = 0 ∧ t₂.seconds = 30 ∧
        s₂.hasPreloadedForInterval ≠ some (currentIntervalKey t₂)))

/-- C9: a tick at the preload boundary (minute % 10 = 0, second = 30) whose
cycle key is not the recorded one issues the staged fetch and records the
key; a later tick in the same bucket at the same boundary issues no
duplicate, and in general a tick stages exactly when at the boundary with
a fresh cycle key. -/
theorem tick_preloads_once (s : DashState) (t t' : ClockTime)
    (hmin : t.minutes % 10 = 0) (hsec : t.seconds = 30)
    (hnew : s.hasPreloadedForInterval ≠ some (currentIntervalKey t)) :
    TickPreloadOnce s t t' := by
  refine ⟨?_, ?_, ?_, ?_⟩
  · simp [tick, hmin, hsec, hnew]
  · simp [tick, loadData_begin, hmin, hsec, hnew]
  · intro hkey
    simp [tick, loadData_begin, hmin, hsec, hnew, hkey]
  · intro s₂ t₂
    by_cases h : t₂.minutes % 10 = 0 ∧ t₂.seconds = 30 ∧
        s₂.hasPreloadedForInterval ≠ some (currentIntervalKey t₂)
    · simp [tick, h.1, h.2.1, h.2.2]
    · simp only [tick]
      rw [if_neg (by simpa using h)]
      simpa using h

/-- C9 witness: `tick_preloads_once` evaluated on the fresh initial state
at the 13:20:30 boundary, with the duplicate tick at the same instant. -/
theorem tick_preloads_once_witness :
    TickPreloadOnce (initState 0) ⟨13, 20, 30⟩ ⟨13, 20, 30⟩ :=
  tick_preloads_once (initState 0) ⟨13, 20, 30⟩ ⟨13, 20, 30⟩ (by decide) rfl (by decide)

/-! ## C10 — branch ordering after every load -/

/-- A branch list in display order: if some entry is the `'cdon'` branch
then the list starts with a `'cdon'` entry, and the non-`'cdon'` entries
are pairwise in ascending lexicographic order of branch name. -/
def CdonFirstSorted (l : List BranchData) : Prop :=
  ((∃ b ∈ l, b.branch = "cdon") → ∃ hd tl, l = hd :: tl ∧ hd.branch = "cdon") ∧
  (l.filter (fun x => x.branch != "cdon")).Pairwise (fun a b => strLe a.branch b.branch = true)

/-- C10: every successful load stores the sorted list — directly into
`data` when `staged = false`, into `pendingData` when `staged = true` —
and the sorted list is a permutation of the response's branch list that
has a `'cdon'` entry first whenever one is present, with all remaining
branches in ascending lexicographic order. -/
theorem loadData_sorts (s : DashState) (response : SalesResponse) :
    (loadData false (.ok response) s).data = sortBranchData response.data ∧
    (loadData true (.ok response) s).pendingData = some (sortBranchData response.data) ∧
    (sortBranchData response.data).Perm response.data ∧
    CdonFirstSorted (sortBranchData response.data) := by
  have hsorted : List.Sorted branchLE (sortBranchData response.data) :=
    List.sorted_insertionSort branchLE response.data
  have hperm : (sortBranchData response.data).Perm response.data :=
    List.perm_insertionSort branchLE response.data
  refine ⟨by simp [loadData, loadData_begin, loadData_settle],
          by simp [loadData, loadData_begin, loadData_settle], hperm, ?_, ?_⟩
  · rintro ⟨b, hb, hcd⟩
    have hbmem : b ∈ sortBranchData response.data := hb
    cases hlist : sortBranchData response.data with
    | nil => rw [hlist] at hbmem; simp at hbmem
    | cons hd tl =>
      refine ⟨hd, tl, rfl, ?_⟩
      by_contra hne
      rw [hlist] at hbmem hsorted
      have hbtl : b ∈ tl := by
        rcases List.mem_cons.1 hbmem with h | h
        · exact absurd (h ▸ hcd) hne
        · exact h
      rcases List.rel_of_sorted_cons hsorted b hbtl with h | ⟨hbne, _⟩
      · exact hne h
      · exact hbne hcd
  · have hp : (sortBranchData response.data).Pairwise branchLE := hsorted
    refine (hp.filter (fun x => x.branch != "cdon")).imp_of_mem ?_
    intro a b ha _ hr
    have ha' : a.branch ≠ "cdon" := by
      have := List.of_mem_filter ha
      simpa using this
    rcases hr with h | ⟨_, hle⟩
    · exact absurd h ha'
    · exact hle

/-- C10 witness: `loadData_sorts` evaluated on a concrete out-of-order
response, placing `'cdon'` first and the rest alphabetically. -/
theorem loadData_sorts_witness :
    (loadData false
        (.ok ⟨[⟨"fyndiq", [], []⟩, ⟨"cdon", [], []⟩, ⟨"apotek", [], []⟩], none, .gmv⟩)
        (initState 0)).data
      = [⟨"cdon", [], []⟩, ⟨"apotek", [], []⟩, ⟨"fyndiq", [], []⟩] :=
  (loadData_sorts (initState 0)
    ⟨[⟨"fyndiq", [], []⟩, ⟨"cdon", [], []⟩, ⟨"apotek", [], []⟩], none, .gmv⟩).1.trans
    (by decide)
